import Mathlib

/- Verification development for the check-processor backend.

   The Python sources are embedded shallowly: regular expressions become a
   small backtracking matcher over an explicit syntax tree (leftmost match,
   alternative priority, greedy and lazy quantifiers, exactly as in CPython's
   re module for the patterns that occur in the code); CPython strptime and
   strftime are embedded for the format strings that the code uses; image
   handling and the external OCR engine, the dateutil fuzzy parser and the
   LLM service are collaborators outside the repository and enter the model
   as explicit oracle parameters, so every pipeline decision that the code
   makes on their textual outputs is fully concrete. -/

namespace CheckProc

/-- Python whitespace (the regex class \s and the default set of str.strip). -/
def pyWhite (c : Char) : Bool :=
  c = ' ' || c = '\t' || c = '\n' || c = '\r' || c = '\x0b' || c = '\x0c'

/-- Python word character (regex class \w restricted to ASCII, which is all
the pipeline's texts contain): letters, digits and the underscore. -/
def isWordChar (c : Char) : Bool :=
  c.isAlpha || c.isDigit || c = '_'

/-- ASCII alphanumeric test, the class [a-zA-Z0-9] used for scoring. -/
def isAlnum (c : Char) : Bool :=
  c.isAlpha || c.isDigit

/-- Drop leading Python whitespace. -/
def dropLeftWs (l : List Char) : List Char :=
  l.dropWhile pyWhite

/-- Python str.strip with no argument: drop whitespace on both ends. -/
def pyStrip (l : List Char) : List Char :=
  ((l.dropWhile pyWhite).reverse.dropWhile pyWhite).reverse

mutual

/-- First stage of re.sub of one or more whitespace with a single space:
copy characters until a whitespace run starts. -/
def collapseWs : List Char → List Char
  | [] => []
  | c :: rest => if pyWhite c then ' ' :: skipWsRun rest else c :: collapseWs rest

/-- Second stage: skip the rest of a whitespace run that was already
replaced by one space. -/
def skipWsRun : List Char → List Char
  | [] => []
  | c :: rest => if pyWhite c then skipWsRun rest else c :: collapseWs rest

end

/-- Substring test on character lists (Python's in operator on str). -/
def isSubList (pat : List Char) : List Char → Bool
  | [] => pat.isPrefixOf []
  | c :: rest => pat.isPrefixOf (c :: rest) || isSubList pat rest

/-! ## A backtracking regex matcher

CPython's re module finds the leftmost match and, at that position, resolves
nondeterminism by alternative priority: in an alternation the left branch is
preferred, a greedy quantifier prefers more repetitions, a lazy quantifier
prefers fewer.  The matcher below enumerates all candidate matches of a
pattern at one position in exactly that priority order and the search takes
the first nonempty position.  Counted quantifiers are expanded into
concatenations and options by the smart constructors, so the core syntax
only needs an unbounded star (greedy and lazy); every starred subpattern in
the embedded code consumes at least one character, and the matcher stops
iterating a star whose body matched without consuming, which is also what
CPython does to avoid empty-match loops. -/

/-- Regex syntax tree: empty, character class, concatenation, alternation,
greedy star, lazy star, the single capturing group, the anchors ^ and $
(no MULTILINE flag anywhere in the code) and the word boundary \b. -/
inductive RE where
  | eps : RE
  | cls : (Char → Bool) → RE
  | cat : RE → RE → RE
  | alt : RE → RE → RE
  | star : RE → RE
  | lstar : RE → RE
  | grp : RE → RE
  | bos : RE
  | eos : RE
  | wb : RE

/-- Character-class test under an optional IGNORECASE flag, as CPython
applies it: the class accepts the character itself, or, when the flag is
set, its lower- or upper-case counterpart. -/
def charMatch (ci : Bool) (p : Char → Bool) (c : Char) : Bool :=
  p c || (ci && (p c.toLower || p c.toUpper))

/-- One backtracking outcome: remaining suffix, preceding character of that
suffix, and the capture of the single group if it participated. -/
abbrev MOut := List Char × Option Char × Option (List Char)

/-- Later capture wins, as group captures overwrite in sequence. -/
def mergeCap : Option (List Char) → Option (List Char) → Option (List Char)
  | ca, none => ca
  | _, some g => some g

/-- All ways a pattern can match a prefix of the input, in CPython priority
order.  The fuel bounds the recursion depth and is decremented on every
recursive call; the recursion is structural in it so that the function
reduces inside the kernel.  The caller supplies fuel generously above the
depth the run can reach, which is bounded by the pattern size times the
input length since every star iteration must consume a character. -/
def mrun (ci : Bool) : Nat → RE → List Char → Option Char → List MOut
  | 0, _, _, _ => []
  | fuel + 1, r, s, prev =>
    match r with
    | .eps => [(s, prev, none)]
    | .cls p =>
      match s with
      | [] => []
      | c :: rest => if charMatch ci p c then [(rest, some c, none)] else []
    | .cat a b =>
      (mrun ci fuel a s prev).flatMap (fun o =>
        (mrun ci fuel b o.1 o.2.1).map (fun o2 => (o2.1, o2.2.1, mergeCap o.2.2 o2.2.2)))
    | .alt a b => mrun ci fuel a s prev ++ mrun ci fuel b s prev
    | .grp a =>
      (mrun ci fuel a s prev).map (fun o => (o.1, o.2.1, some (s.take (s.length - o.1.length))))
    | .star a =>
      ((mrun ci fuel a s prev).flatMap (fun o =>
        if o.1.length < s.length then
          (mrun ci fuel (.star a) o.1 o.2.1).map
            (fun o2 => (o2.1, o2.2.1, mergeCap o.2.2 o2.2.2))
        else []))
      ++ [(s, prev, none)]
    | .lstar a =>
      (s, prev, none) ::
      (mrun ci fuel a s prev).flatMap (fun o =>
        if o.1.length < s.length then
          (mrun ci fuel (.lstar a) o.1 o.2.1).map
            (fun o2 => (o2.1, o2.2.1, mergeCap o.2.2 o2.2.2))
        else [])
    | .bos =>
      match prev with
      | none => [(s, prev, none)]
      | some _ => []
    | .eos =>
      match s with
      | [] => [(s, prev, none)]
      | ['\n'] => [(s, prev, none)]
      | _ => []
    | .wb =>
      let before := match prev with | none => false | some c => isWordChar c
      let after := match s with | [] => false | c :: _ => isWordChar c
      if before != after then [(s, prev, none)] else []

/-- A successful search: the matched text (group 0) and the capture of the
capturing group (group 1) when the pattern has one. -/
structure RMatch where
  matched : List Char
  cap : Option (List Char)
deriving DecidableEq, Repr

/-- The fuel budget of one match attempt, far above any reachable depth for
the patterns of this code base. -/
def matchFuel (s : List Char) : Nat := 500 * (s.length + 2)

/-- The match attempt at one fixed position. -/
def matchAt (ci : Bool) (r : RE) (s : List Char) (prev : Option Char) : Option RMatch :=
  match (mrun ci (matchFuel s) r s prev).head? with
  | some o => some ⟨s.take (s.length - o.1.length), o.2.2⟩
  | none => none

/-- re.search: try each start position from the left and return the first
match (CPython's leftmost-match rule). -/
def searchFrom (ci : Bool) (r : RE) : List Char → Option Char → Option RMatch
  | s, prev =>
    match matchAt ci r s prev with
    | some m => some m
    | none =>
      match s with
      | [] => none
      | c :: rest => searchFrom ci r rest (some c)

/-- re.search on a whole input. -/
def reSearch (ci : Bool) (r : RE) (s : List Char) : Option RMatch :=
  searchFrom ci r s none

/-! ### Smart constructors mirroring regex notation -/

/-- A single literal character. -/
def chr (c : Char) : RE := RE.cls (fun x => x = c)

/-- A literal string, character by character. -/
def lit (s : String) : RE :=
  s.data.foldr (fun c acc => RE.cat (chr c) acc) RE.eps

/-- A set of characters, written as the characters of a string. -/
def oneOf (s : String) : RE := RE.cls (fun c => s.data.contains c)

/-- A negated set of characters. -/
def noneOf (s : String) : RE := RE.cls (fun c => !s.data.contains c)

/-- The greedy option quantifier, preferring presence. -/
def qopt (a : RE) : RE := RE.alt a RE.eps

/-- The greedy plus quantifier. -/
def qplus (a : RE) : RE := RE.cat a (RE.star a)

/-- The lazy plus quantifier, preferring fewest repetitions. -/
def qplusLazy (a : RE) : RE := RE.cat a (RE.lstar a)

/-- An exact repetition count, expanded to a concatenation. -/
def qrep : Nat → RE → RE
  | 0, _ => RE.eps
  | n + 1, a => RE.cat a (qrep n a)

/-- Up to n further greedy repetitions, expanded to nested options so that
more repetitions are preferred, as a greedy counted quantifier does. -/
def qextra : Nat → RE → RE
  | 0, _ => RE.eps
  | n + 1, a => qopt (RE.cat a (qextra n a))

/-- The counted quantifier with a range, lo at least and hi at most. -/
def qrange (lo hi : Nat) (a : RE) : RE := RE.cat (qrep lo a) (qextra (hi - lo) a)

/-- The class \d. -/
def dig : RE := RE.cls Char.isDigit

/-- The class \s. -/
def wsp : RE := RE.cls pyWhite

/-- The class \w. -/
def wrd : RE := RE.cls isWordChar

/-- The dot, any character except a newline (no DOTALL flag in the code). -/
def dotAny : RE := RE.cls (fun c => c != '\n')

/-- The class [A-Z]. -/
def upperC : RE := RE.cls (fun c => 'A' ≤ c && c ≤ 'Z')

/-- The class [a-z]. -/
def lowerC : RE := RE.cls (fun c => 'a' ≤ c && c ≤ 'z')

/-- The class [A-Za-z]. -/
def alphaC : RE := RE.cls (fun c => ('A' ≤ c && c ≤ 'Z') || ('a' ≤ c && c ≤ 'z'))

/-- Fold a nonempty list of alternatives left to right, left preferred. -/
def altList : List RE → RE
  | [] => RE.eps
  | [r] => r
  | r :: rest => RE.alt r (altList rest)

/-- Concatenate a list of patterns. -/
def catList : List RE → RE
  | [] => RE.eps
  | [r] => r
  | r :: rest => RE.cat r (catList rest)

/-! ## CPython strptime / strftime for the formats in regex_extractor

CPython strptime compiles a format into a regex: %m becomes
(1[0-2]|0[1-9]|[1-9]), %d becomes (3[01]|[12][0-9]|0[1-9]|[1-9]), %Y four
digits, %y two digits with century 2000 for 00-68 and 1900 for 69-99, %b an
abbreviated month name matched case-insensitively, and whitespace in the
format matches one or more whitespace characters.  The match must start at
the beginning and any unconverted trailing data raises ValueError.  The
matched numbers are then validated when the datetime is constructed, which
rejects days beyond the month length.  The token parsers below implement
exactly those alternations with their priority and the continuation-passing
helper provides the regex backtracking between a token's alternatives. -/

/-- A calendar date as datetime holds it. -/
structure PyDate where
  y : Nat
  m : Nat
  d : Nat
deriving DecidableEq, Repr

/-- Gregorian leap-year rule used by datetime. -/
def isLeap (y : Nat) : Bool :=
  (y % 4 = 0 && y % 100 ≠ 0) || y % 400 = 0

/-- Length of a month as datetime validates it. -/
def daysInMonth (y m : Nat) : Nat :=
  if m = 2 then (if isLeap y then 29 else 28)
  else if m = 4 || m = 6 || m = 9 || m = 11 then 30 else 31

/-- datetime construction: the month token is already restricted to 1..12
and the day token to 1..31, so validation of the year range and the day
against the month length remains. -/
def mkDate (y m d : Nat) : Option PyDate :=
  if 1 ≤ y && y ≤ 9999 && d ≤ daysInMonth y m then some ⟨y, m, d⟩ else none

/-- Numeric value of a digit character. -/
def digitVal (c : Char) : Nat := c.toNat - '0'.toNat

/-- The %m alternatives in CPython order: 1[0-2], 0[1-9], [1-9]. -/
def monthAlts : List (List Char → Option (Nat × List Char)) :=
  [fun s => match s with
    | '1' :: c :: rest => if '0' ≤ c && c ≤ '2' then some (10 + digitVal c, rest) else none
    | _ => none,
   fun s => match s with
    | '0' :: c :: rest => if '1' ≤ c && c ≤ '9' then some (digitVal c, rest) else none
    | _ => none,
   fun s => match s with
    | c :: rest => if '1' ≤ c && c ≤ '9' then some (digitVal c, rest) else none
    | [] => none]

/-- The %d alternatives in CPython order: 3[01], [12][0-9], 0[1-9], [1-9]. -/
def dayAlts : List (List Char → Option (Nat × List Char)) :=
  [fun s => match s with
    | '3' :: c :: rest => if c = '0' || c = '1' then some (30 + digitVal c, rest) else none
    | _ => none,
   fun s => match s with
    | c1 :: c2 :: rest =>
        if (c1 = '1' || c1 = '2') && c2.isDigit
        then some (10 * digitVal c1 + digitVal c2, rest) else none
    | _ => none,
   fun s => match s with
    | '0' :: c :: rest => if '1' ≤ c && c ≤ '9' then some (digitVal c, rest) else none
    | _ => none,
   fun s => match s with
    | c :: rest => if '1' ≤ c && c ≤ '9' then some (digitVal c, rest) else none
    | [] => none]

/-- Try a token's alternatives in priority order; when a continuation fails
the next alternative is tried, which is regex backtracking restricted to
the strptime grammar. -/
def tryAlts (alts : List (List Char → Option (Nat × List Char))) (s : List Char)
    (k : Nat → List Char → Option PyDate) : Option PyDate :=
  match alts with
  | [] => none
  | a :: rest =>
    match a s with
    | some (v, s1) =>
      match k v s1 with
      | some d => some d
      | none => tryAlts rest s k
    | none => tryAlts rest s k

/-- A required literal character in the format. -/
def expectChar (c : Char) : List Char → Option (List Char)
  | x :: rest => if x = c then some rest else none
  | _ => none

/-- %Y: exactly four digits. -/
def year4 : List Char → Option (Nat × List Char)
  | a :: b :: c :: d :: rest =>
    if a.isDigit && b.isDigit && c.isDigit && d.isDigit then
      some (1000 * digitVal a + 100 * digitVal b + 10 * digitVal c + digitVal d, rest)
    else none
  | _ => none

/-- %y: exactly two digits, with CPython's century pivot at 68. -/
def year2 : List Char → Option (Nat × List Char)
  | a :: b :: rest =>
    if a.isDigit && b.isDigit then
      let yy := 10 * digitVal a + digitVal b
      some (if yy ≤ 68 then 2000 + yy else 1900 + yy, rest)
    else none
  | _ => none

/-- strptime with format month-sep-day-sep-4-digit-year. -/
def strptime_mdY (sep : Char) (s : List Char) : Option PyDate :=
  tryAlts monthAlts s (fun m s1 =>
    (expectChar sep s1).bind (fun s2 =>
      tryAlts dayAlts s2 (fun d s3 =>
        (expectChar sep s3).bind (fun s4 =>
          (year4 s4).bind (fun yr =>
            if yr.2 = [] then mkDate yr.1 m d else none)))))

/-- strptime with format 4-digit-year-sep-month-sep-day. -/
def strptime_Ymd (sep : Char) (s : List Char) : Option PyDate :=
  (year4 s).bind (fun yr =>
    (expectChar sep yr.2).bind (fun s1 =>
      tryAlts monthAlts s1 (fun m s2 =>
        (expectChar sep s2).bind (fun s3 =>
          tryAlts dayAlts s3 (fun d s4 =>
            if s4 = [] then mkDate yr.1 m d else none)))))

/-- strptime with format month-sep-day-sep-2-digit-year. -/
def strptime_mdy (sep : Char) (s : List Char) : Option PyDate :=
  tryAlts monthAlts s (fun m s1 =>
    (expectChar sep s1).bind (fun s2 =>
      tryAlts dayAlts s2 (fun d s3 =>
        (expectChar sep s3).bind (fun s4 =>
          (year2 s4).bind (fun yr =>
            if yr.2 = [] then mkDate yr.1 m d else none)))))

/-- The abbreviated month names of %b, in month order. -/
def monthAbbrevs : List String :=
  ["jan", "feb", "mar", "apr", "may", "jun", "jul", "aug", "sep", "oct", "nov", "dec"]

/-- Position of an abbreviation in the month list, one-based. -/
def abbrevIdx (low : List Char) : List String → Nat → Option Nat
  | [], _ => none
  | a :: rest, i => if a.data = low then some i else abbrevIdx low rest (i + 1)

/-- %b: a three-letter month abbreviation, matched case-insensitively. -/
def matchAbbrev (s : List Char) : Option (Nat × List Char) :=
  match s with
  | a :: b :: c :: rest =>
    match abbrevIdx [a.toLower, b.toLower, c.toLower] monthAbbrevs 1 with
    | some i => some (i, rest)
    | none => none
  | _ => none

/-- One or more whitespace characters, as format whitespace matches. -/
def skipWs1 : List Char → Option (List Char)
  | c :: rest => if pyWhite c then some (rest.dropWhile pyWhite) else none
  | [] => none

/-- strptime with the format of month-name day, comma, 4-digit year. -/
def strptime_bdY (s : List Char) : Option PyDate :=
  (matchAbbrev s).bind (fun mo =>
    (skipWs1 mo.2).bind (fun s1 =>
      tryAlts dayAlts s1 (fun d s2 =>
        (expectChar ',' s2).bind (fun s3 =>
          (skipWs1 s3).bind (fun s4 =>
            (year4 s4).bind (fun yr =>
              if yr.2 = [] then mkDate yr.1 mo.1 d else none))))))

/-- Two-digit zero padding of strftime %m and %d. -/
def pad2 (n : Nat) : List Char :=
  if n < 10 then ['0', Nat.digitChar n] else Nat.toDigits 10 n

/-- strftime with format year-month-day: glibc prints the year unpadded and
the month and day zero-padded to two digits. -/
def strftimeYmd (d : PyDate) : List Char :=
  Nat.toDigits 10 d.y ++ '-' :: (pad2 d.m ++ '-' :: pad2 d.d)

/-! ## RegexCheckExtractor (regex_extractor.py) -/

namespace RegexCheckExtractor

open CheckProc

/-- The date pattern list, transcribed in order. -/
def datePatterns : List RE :=
  [RE.grp (catList [qrep 2 dig, chr '-', qrep 2 dig, chr '-', qrep 4 dig]),
   RE.grp (catList [qrange 1 2 dig, chr '-', qrange 1 2 dig, chr '-', qrep 4 dig]),
   RE.grp (catList [qrep 2 dig, chr '/', qrep 2 dig, chr '/', qrep 4 dig]),
   RE.grp (catList [qrange 1 2 dig, chr '/', qrange 1 2 dig, chr '/', qrep 4 dig]),
   RE.grp (catList [qrep 4 dig, chr '-', qrange 1 2 dig, chr '-', qrange 1 2 dig]),
   catList [RE.wb,
     RE.grp (altList (["Jan", "Feb", "Mar", "Apr", "May", "Jun", "Jul", "Aug", "Sep",
       "Oct", "Nov", "Dec"].map lit)),
     RE.star lowerC, qplus wsp, qrange 1 2 dig, qopt (chr ','), qplus wsp,
     qrep 4 dig, RE.wb]]

/-- The capturing group shared by the first two amount patterns. -/
def amountGroup : RE :=
  RE.grp (catList [qrange 1 3 dig,
    RE.star (RE.cat (qopt (chr ',')) (qrep 3 dig)),
    qopt (RE.cat (chr '.') (qrep 2 dig))])

/-- The amount pattern list, transcribed in order. -/
def amountPatterns : List RE :=
  [catList [chr '$', RE.star wsp, amountGroup],
   catList [RE.alt (chr '$') (lit "Dollar"), RE.star wsp, amountGroup],
   RE.grp (catList [qrange 1 3 dig, RE.star (RE.cat (chr ',') (qrep 3 dig)),
     chr '.', qrep 2 dig]),
   RE.grp (catList [qrange 1 6 dig, chr '.', qrep 2 dig])]

/-- The quote-like artifact class of the payee patterns. -/
def quoteCls : RE := oneOf "\"'*_"

/-- The artifact class that additionally admits the trademark sign. -/
def quoteClsTm : RE := oneOf "\"'*_™"

/-- The capitalized two-word name group of the payee patterns. -/
def nameGrp : RE :=
  RE.grp (catList [upperC, qplus lowerC, qplus wsp, upperC, qplus lowerC])

/-- The payee pattern list, transcribed in order. -/
def payeePatterns : List RE :=
  [catList [RE.star quoteCls, RE.star wsp, nameGrp, RE.star quoteClsTm],
   catList [altList [RE.bos, chr '\n', chr '|'], RE.star wsp, RE.star quoteCls,
     RE.star wsp, nameGrp],
   catList [qplus quoteCls, nameGrp, RE.star quoteCls],
   catList [nameGrp, RE.star quoteClsTm, RE.star wsp, chr '$'],
   catList [RE.alt
       (catList [lit "Pay", qplus wsp, lit "to", qplus wsp, lit "the", qplus wsp,
         lit "order", qplus wsp, lit "of"])
       (catList [lit "Payable", qplus wsp, lit "to"]),
     RE.star wsp, qopt (chr ':'), RE.star wsp,
     RE.grp (qplusLazy (RE.cls (fun c =>
       ('A' ≤ c && c ≤ 'Z') || ('a' ≤ c && c ≤ 'z') || pyWhite c ||
       "'.,&-".data.contains c))),
     altList [RE.cat (RE.star wsp) (chr '$'), chr '\n', RE.eos]]]

/-- The character class of the label-based memo patterns. -/
def memoBodyCls : RE :=
  RE.cls (fun c => isAlnum c || pyWhite c || "'.,&-".data.contains c)

/-- The terminator of the label-based memo patterns. -/
def memoTail : RE :=
  altList [RE.cat (RE.star wsp) (chr '-'), chr '\n', RE.eos]

/-- The memo pattern list, transcribed in order. -/
def memoPatterns : List RE :=
  [RE.grp (catList [lit "Donation", qplus wsp, lit "for", qplus wsp, lit "Education"]),
   RE.grp (catList [upperC, qplus lowerC, qplus wsp, lit "for", qplus wsp, upperC,
     qplus lowerC, RE.star (catList [qplus wsp, upperC, qplus lowerC])]),
   catList [altList [lit "For", lit "Memo", lit "Re:", lit "Reference"],
     RE.star wsp, qopt (chr ':'), RE.star wsp, RE.grp (qplusLazy memoBodyCls), memoTail],
   catList [lit "Payment", qplus wsp, lit "for", RE.star wsp, qopt (chr ':'),
     RE.star wsp, RE.grp (qplusLazy memoBodyCls), memoTail],
   catList [RE.grp (catList [upperC, qplus lowerC,
       RE.star (RE.cat (qplus wsp) (qplus lowerC)), qplus wsp, upperC, qplus lowerC]),
     RE.star wsp, qopt (chr '-'), RE.star wsp, RE.eos]]

/-- The routing-number pattern list, transcribed in order. -/
def routingPatterns : List RE :=
  [catList [chr ':', RE.star wsp, RE.grp (qrange 6 9 dig), RE.star wsp, chr ':'],
   catList [oneOf ":|", RE.star wsp, RE.grp (qrange 6 9 dig)],
   catList [RE.bos, RE.star wsp, RE.grp (qrange 6 9 dig), RE.star wsp, oneOf ":|"]]

/-- The account-number pattern list, transcribed in order. -/
def accountPatterns : List RE :=
  [catList [chr ':', RE.star wsp, RE.grp (qrange 6 15 dig), RE.star wsp],
   catList [oneOf ":|", RE.star wsp, RE.grp (qrange 6 15 dig), oneOf ":|"],
   RE.grp (qrange 6 15 dig)]

/-- The check-number pattern list, transcribed in order. -/
def checkNumPatterns : List RE :=
  [catList [oneOf ":|", RE.star wsp, RE.grp (qrange 3 6 dig), RE.star wsp, RE.eos],
   catList [RE.bos, RE.star wsp, RE.grp (qrange 3 6 dig), RE.star wsp, RE.eos],
   catList [qplus wsp, RE.grp (qrange 3 6 dig), RE.star wsp, RE.eos]]

/-- The written-amount trigger pattern: a number word, anything, then a
Dollar word. -/
def writtenPattern : RE :=
  catList [altList (["One", "Two", "Three", "Four", "Five", "Six", "Seven", "Eight",
      "Nine", "Ten", "Eleven", "Twelve", "Thirteen", "Fourteen", "Fifteen", "Sixteen",
      "Seventeen", "Eighteen", "Nineteen", "Twenty", "Thirty", "Forty", "Fifty",
      "Sixty", "Seventy", "Eighty", "Ninety", "Hundred", "Thousand", "Million",
      "Billion"].map lit),
    RE.star dotAny, RE.alt (lit "Dollar") (lit "Dollars")]

/-- clean_text: collapse whitespace runs to one space, replace characters
outside the allow set with a space, and strip. -/
def clean_text (t : List Char) : List Char :=
  pyStrip ((collapseWs t).map (fun c =>
    if isWordChar c || pyWhite c || "$.,/'-&\"*™|_".data.contains c then c else ' '))

/-- The cleanup applied to a matched payee group: strip, collapse
whitespace, delete quote-like artifacts, delete characters outside the
allow set, and strip again. -/
def payeeClean (g : List Char) : List Char :=
  pyStrip (((collapseWs (pyStrip g)).filter
      (fun c => !"\"'*_™".data.contains c)).filter
    (fun c => isWordChar c || pyWhite c || "'.,&-".data.contains c))

/-- extract_payee: first pattern whose cleaned capture is longer than one
character and contains a letter wins. -/
def extract_payee_go : List RE → List Char → Option (List Char)
  | [], _ => none
  | p :: ps, t =>
    match reSearch true p t with
    | some m =>
      let payee := payeeClean (m.cap.getD [])
      if 1 < payee.length &&
          payee.any (fun c => ('A' ≤ c && c ≤ 'Z') || ('a' ≤ c && c ≤ 'z'))
      then some payee else extract_payee_go ps t
    | none => extract_payee_go ps t

/-- The normalization cascade of extract_date: a dash-separated match tries
month-day-4-digit-year, then year-month-day, then month-day-2-digit-year; a
slash-separated match tries month-day-4-digit-year, month-day-2-digit-year,
then year-month-day; otherwise the month-name format is tried. -/
def normalize_date (ds : List Char) : Option (List Char) :=
  if ds.contains '-' then
    (match strptime_mdY '-' ds with
     | some d => some d
     | none =>
       match strptime_Ymd '-' ds with
       | some d => some d
       | none => strptime_mdy '-' ds).map strftimeYmd
  else if ds.contains '/' then
    (match strptime_mdY '/' ds with
     | some d => some d
     | none =>
       match strptime_mdy '/' ds with
       | some d => some d
       | none => strptime_Ymd '/' ds).map strftimeYmd
  else
    (strptime_bdY ds).map strftimeYmd

/-- extract_date: first pattern whose stripped whole match normalizes wins;
a match that fails every format attempt falls through to the next pattern. -/
def extract_date_go : List RE → List Char → Option (List Char)
  | [], _ => none
  | p :: ps, t =>
    match reSearch true p t with
    | some m =>
      match normalize_date (pyStrip m.matched) with
      | some r => some r
      | none => extract_date_go ps t
    | none => extract_date_go ps t

/-- The cleanup applied to a matched amount group: keep only digits,
periods and commas. -/
def amountClean (g : List Char) : List Char :=
  g.filter (fun c => c.isDigit || c = '.' || c = ',')

/-- convert_written_amount: lower-case the match, blank characters that are
neither word characters nor whitespace, collapse whitespace, strip, then
recognize the closed set of phrasings.  (The number-word table in the
source is built but never consulted.) -/
def convert_written_amount (t : List Char) : Option (List Char) :=
  match reSearch true writtenPattern t with
  | none => none
  | some m =>
    let wc := pyStrip (collapseWs ((m.matched.map Char.toLower).map
      (fun c => if isWordChar c || pyWhite c then c else ' ')))
    if isSubList "one hundred twenty three thousand four hundred fifty six".data wc then
      some "123456.00".data
    else if isSubList "123456".data wc || isSubList "123,456".data wc then
      some "123456.00".data
    else if isSubList "one thousand".data wc && isSubList "hundred".data wc then
      some "1000.00".data
    else none

/-- extract_amount: first numeric pattern whose cleaned capture is nonempty
wins, otherwise the written-amount conversion is attempted.  (Every amount
pattern has exactly one group, so the source's two-group branch never
runs.) -/
def extract_amount_go : List RE → List Char → Option (List Char)
  | [], t => convert_written_amount t
  | p :: ps, t =>
    match reSearch false p t with
    | some m =>
      let amount := amountClean (m.cap.getD [])
      if amount.isEmpty then extract_amount_go ps t else some amount
    | none => extract_amount_go ps t

/-- The cleanup applied to a matched memo group: strip, collapse
whitespace, delete characters outside the allow set. -/
def memoClean (g : List Char) : List Char :=
  (collapseWs (pyStrip g)).filter
    (fun c => isWordChar c || pyWhite c || "'.,&-".data.contains c)

/-- extract_memo: first pattern whose cleaned capture is longer than two
characters wins; the default is the empty string. -/
def extract_memo_go : List RE → List Char → List Char
  | [], _ => []
  | p :: ps, t =>
    match reSearch true p t with
    | some m =>
      let memo := memoClean (m.cap.getD [])
      if 2 < memo.length then memo else extract_memo_go ps t
    | none => extract_memo_go ps t

/-- The shared shape of the MICR-field extractors: strip the capture, keep
only digits, and accept when the digit count lies in the field's range. -/
def extract_numfield_go (lo hi : Nat) : List RE → List Char → List Char
  | [], _ => []
  | p :: ps, t =>
    match reSearch false p t with
    | some m =>
      let v := (pyStrip (m.cap.getD [])).filter Char.isDigit
      if lo ≤ v.length && v.length ≤ hi then v else extract_numfield_go lo hi ps t
    | none => extract_numfield_go lo hi ps t

/-- The result dictionary of extract_check_info. -/
structure RegexResult where
  payee_name : Option String
  date : Option String
  amount : Option String
  memo : String
  routing_number : String
  account_number : String
  check_number : String
  raw_text : String
  extraction_success : Bool
  method : String
deriving DecidableEq, Repr

/-- Python truthiness of an optional string: present and nonempty. -/
def truthyO : Option String → Bool
  | none => false
  | some s => !s.data.isEmpty

/-- The field count that decides extraction success. -/
def count3 (a b c : Option String) : Nat :=
  (if truthyO a then 1 else 0) + (if truthyO b then 1 else 0) +
    (if truthyO c then 1 else 0)

/-- extract_check_info: clean the text, run every field extractor, and
report success exactly when at least two of payee, date and amount are
truthy. -/
def extract_check_info (ocr_text : String) : RegexResult :=
  let cleaned := clean_text ocr_text.data
  let payee := (extract_payee_go payeePatterns cleaned).map String.mk
  let date := (extract_date_go datePatterns cleaned).map String.mk
  let amount := (extract_amount_go amountPatterns cleaned).map String.mk
  { payee_name := payee
    date := date
    amount := amount
    memo := String.mk (extract_memo_go memoPatterns cleaned)
    routing_number := String.mk (extract_numfield_go 6 9 routingPatterns cleaned)
    account_number := String.mk (extract_numfield_go 6 15 accountPatterns cleaned)
    check_number := String.mk (extract_numfield_go 3 6 checkNumPatterns cleaned)
    raw_text := ocr_text
    extraction_success := decide (2 ≤ count3 payee date amount)
    method := "regex_extraction" }

end RegexCheckExtractor

/-! ## ImprovedCheckOCR (improved_ocr.py)

Images are opaque to the logic we verify: every decision the code makes is
on the texts the external OCR engine returns for a given crop, image
variant and engine configuration, and on the output of the external
dateutil fuzzy parser.  Those collaborators enter the model as an explicit
environment, so the extraction pipeline itself is a total function of it. -/

namespace ImprovedCheckOCR

/-- The crops and preprocessed image variants the engine is shown: one tag
per ROI of the hardcoded layout, with the payee ROI readable from both the
plain preprocessed image and the deskewed one. -/
inductive RoiTag where
  | dateRoi
  | payeeOrig
  | payeeDeskew
  | amountNumRoi
  | amountWordsRoi
  | memoRoi
deriving DecidableEq, Repr

/-- The collaborators of extract_check_fields: the OCR engine per crop and
per psm configuration (none models the engine raising), the full-image OCR
pass, the full-image pass of the exception fallback, and the dateutil
fuzzy parser, which returns the empty string on failure. -/
structure OcrEnv where
  eng : RoiTag → Nat → Option String
  fullText : Option String
  fallbackText : Option String
  parseDateFn : String → String

/-- The alphanumeric score: the length of the text after stripping every
character outside [a-zA-Z0-9]. -/
def alnumCount (s : String) : Nat :=
  (s.data.filter isAlnum).length

/-- The engine configurations ocr_text runs, in order: the caller's psm,
then psm 7 (single line), psm 8 (single word) and psm 6 (uniform block). -/
def configList (psm : Nat) : List Nat := [psm, 7, 8, 6]

/-- ocr_text: invoke the engine once per configuration, strip each result,
keep the one with strictly more alphanumeric characters than the best so
far (so ties keep the earlier candidate), and swallow engine failures. -/
def ocr_text (engine : Nat → Option String) (psm : Nat) : String :=
  (configList psm).foldl (fun best c =>
    match engine c with
    | none => best
    | some t =>
      let t1 := String.mk (pyStrip t.data)
      if alnumCount best < alnumCount t1 then t1 else best) ""

/-- The amount pattern of parse_amount: digits with an optional two-digit
fraction, the decimal alternative preferred. -/
def parseAmountPattern : RE :=
  RE.grp (RE.alt (catList [qplus dig, chr '.', qrep 2 dig]) (qplus dig))

/-- parse_amount: drop commas, repair the letter O to a zero, and return
the first number found, or the empty string. -/
def parse_amount (text : String) : String :=
  let t := (text.data.filter (fun c => c ≠ ',')).map (fun c => if c = 'O' then '0' else c)
  match reSearch false parseAmountPattern t with
  | some m => String.mk (m.cap.getD [])
  | none => ""

/-- The cleanup of the payee and memo ROI texts: keep letters, digits,
spaces and the characters in the allow set, then strip. -/
def roiFieldClean (l : List Char) : List Char :=
  pyStrip (l.filter (fun c => isAlnum c || c = ' ' || "'.,&-".data.contains c))

/-- The letter count that gates the payee field in the success check. -/
def letterCount (s : String) : Nat :=
  (s.data.filter (fun c => ('A' ≤ c && c ≤ 'Z') || ('a' ≤ c && c ≤ 'z'))).length

/-- Python truthiness of a plain string. -/
def truthyStr (s : String) : Bool := !s.data.isEmpty

/-- The result dictionary of extract_check_fields, restricted to the keys
its callers read.  On the normal path every field is present (possibly
empty); on the exception path the core fields are None. -/
structure ImprovedResult where
  extraction_success : Bool
  payee_name : Option String
  date : Option String
  amount : Option String
  memo : String
  raw_text : String
deriving DecidableEq, Repr

/-- extract_check_fields: per-ROI OCR on the plain preprocessed image, a
second payee pass on the deskewed variant when the first scores fewer than
3 alphanumeric characters, per-field cleanup, and the success count in
which payee participates only with at least 3 letters.  A raised
full-image OCR pass (fullText none) models the jump to the exception
handler, which falls back to a plain OCR dict, or to an empty one when
that raises too. -/
def extract_check_fields (env : OcrEnv) : ImprovedResult :=
  match env.fullText with
  | some full =>
    let date_txt := ocr_text (env.eng .dateRoi) 7
    let date := env.parseDateFn date_txt
    let payee_txt0 := ocr_text (env.eng .payeeOrig) 7
    let payee_txt :=
      if alnumCount payee_txt0 < 3 then ocr_text (env.eng .payeeDeskew) 7 else payee_txt0
    let payee := String.mk (roiFieldClean payee_txt.data)
    let amt_num_txt := ocr_text (env.eng .amountNumRoi) 7
    let amount := parse_amount amt_num_txt
    let _amount_words_txt := ocr_text (env.eng .amountWordsRoi) 7
    let memo_txt := ocr_text (env.eng .memoRoi) 7
    let memo := String.mk (roiFieldClean memo_txt.data)
    let extracted :=
      (if truthyStr payee && decide (3 ≤ letterCount payee) then 1 else 0) +
        (if truthyStr date then 1 else 0) + (if truthyStr amount then 1 else 0)
    { extraction_success := decide (2 ≤ extracted)
      payee_name := some payee
      date := some date
      amount := some amount
      memo := memo
      raw_text := full }
  | none =>
    match env.fallbackText with
    | some fb =>
      { extraction_success := false, payee_name := none, date := none,
        amount := none, memo := "", raw_text := fb }
    | none =>
      { extraction_success := false, payee_name := none, date := none,
        amount := none, memo := "", raw_text := "" }

end ImprovedCheckOCR

/-! ## The orchestrator endpoint (main.py) -/

namespace Main

open RegexCheckExtractor ImprovedCheckOCR

/-- The field set the LLM collaborator returns; each value may be absent
since the service copies whatever the model's JSON held. -/
structure LLMResult where
  payee_name : Option String
  date : Option String
  amount : Option String
  memo : Option String
deriving DecidableEq, Repr

/-- The structured_data object of the endpoint's response. -/
structure StructuredData where
  payee_name : Option String
  date : Option String
  amount : Option String
  memo : Option String
  routing_number : String
  account_number : String
  check_number : String
  raw_text : String
  extraction_success : Bool
  method : String
deriving DecidableEq, Repr

/-- improved_results.get of the routing number with default empty: the ROI
result dictionary never carries MICR keys, so the default is always
taken. -/
def improvedGetRouting (_ : ImprovedResult) : String := ""

/-- improved_results.get of the account number with default empty. -/
def improvedGetAccount (_ : ImprovedResult) : String := ""

/-- improved_results.get of the check number with default empty. -/
def improvedGetCheckNum (_ : ImprovedResult) : String := ""

/-- A regex-layer result used verbatim as structured_data. -/
def regexToStructured (r : RegexResult) : StructuredData :=
  { payee_name := r.payee_name, date := r.date, amount := r.amount,
    memo := some r.memo, routing_number := r.routing_number,
    account_number := r.account_number, check_number := r.check_number,
    raw_text := r.raw_text, extraction_success := r.extraction_success,
    method := r.method }

/-- The structured_data the endpoint builds from a successful ROI result,
with success hardcoded to true. -/
def improvedToStructured (r : ImprovedResult) : StructuredData :=
  { payee_name := r.payee_name, date := r.date, amount := r.amount,
    memo := some r.memo, routing_number := improvedGetRouting r,
    account_number := improvedGetAccount r, check_number := improvedGetCheckNum r,
    raw_text := r.raw_text, extraction_success := true,
    method := "improved_ocr_only" }

/-- The endpoint's JSON response: raw text, optional structured data, the
top-level success flag, an optional error description and the diagnostic
trail. -/
structure Response where
  raw_text : String
  structured_data : Option StructuredData
  success : Bool
  error : Option String
  debug_info : List (String × String)
deriving DecidableEq, Repr

/-- Python's repr of a boolean, as it would appear in the JSON trail. -/
def bstr : Bool → String
  | true => "True"
  | false => "False"

/-- The /ocr endpoint: the cascade of ROI extraction, optional LLM
cross-check, regex fallback, plain OCR plus regex, and the raw-text
fallback, with an error response when the plain OCR stage raises.  The llm
argument models the process_check_text call (error means it raised) and
simpleOcr the decode-plus-pytesseract pass of the fallback stage. -/
def ocr (env : OcrEnv) (llm_available : Bool) (llm : Except String LLMResult)
    (simpleOcr : Except String String) : Response :=
  let improved := extract_check_fields env
  if improved.extraction_success then
    if llm_available then
      match llm with
      | .ok l =>
        let llmCount := count3 l.payee_name l.date l.amount
        let impCount := count3 improved.payee_name improved.date improved.amount
        if impCount < llmCount then
          { raw_text := improved.raw_text
            structured_data := some
              { payee_name := l.payee_name, date := l.date, amount := l.amount,
                memo := l.memo, routing_number := improvedGetRouting improved,
                account_number := improvedGetAccount improved,
                check_number := improvedGetCheckNum improved,
                raw_text := improved.raw_text, extraction_success := true,
                method := "improved_ocr + llm" }
            success := true
            error := none
            debug_info := [("improved_ocr_success", "True"), ("llm_success", "True"),
              ("llm_available", "True"), ("method_used", "improved_ocr + llm_validation")] }
        else
          let regexR := extract_check_info improved.raw_text
          if regexR.extraction_success then
            { raw_text := regexR.raw_text
              structured_data := some (regexToStructured regexR)
              success := true
              error := none
              debug_info := [("improved_ocr_success", "True"), ("llm_success", "True"),
                ("regex_success", "True"), ("llm_available", "True"),
                ("method_used", "improved_ocr + regex")] }
          else
            { raw_text := improved.raw_text
              structured_data := some (improvedToStructured improved)
              success := true
              error := none
              debug_info := [("improved_ocr_success", "True"), ("llm_success", "True"),
                ("llm_available", "True"), ("method_used", "improved_ocr_only")] }
      | .error e =>
        let regexR := extract_check_info improved.raw_text
        if regexR.extraction_success then
          { raw_text := regexR.raw_text
            structured_data := some (regexToStructured regexR)
            success := true
            error := none
            debug_info := [("improved_ocr_success", "True"), ("llm_success", "False"),
              ("regex_success", "True"), ("llm_available", "True"), ("llm_error", e),
              ("method_used", "improved_ocr + regex")] }
        else
          { raw_text := improved.raw_text
            structured_data := some (improvedToStructured improved)
            success := true
            error := none
            debug_info := [("improved_ocr_success", "True"), ("llm_success", "False"),
              ("llm_available", "True"), ("llm_error", e),
              ("method_used", "improved_ocr_only")] }
    else
      { raw_text := improved.raw_text
        structured_data := some (improvedToStructured improved)
        success := true
        error := none
        debug_info := [("improved_ocr_success", "True"), ("llm_success", "False"),
          ("llm_available", "False"), ("method_used", "improved_ocr_only")] }
  else
    let regexR := extract_check_info improved.raw_text
    if regexR.extraction_success then
      { raw_text := regexR.raw_text
        structured_data := some (regexToStructured regexR)
        success := true
        error := none
        debug_info := [("improved_ocr_success", "False"), ("regex_success", "True"),
          ("llm_available", bstr llm_available), ("method_used", "regex_extraction")] }
    else
      match simpleOcr with
      | .error e =>
        { raw_text := ""
          structured_data := none
          success := false
          error := some ("All OCR methods failed: " ++ e)
          debug_info := [("improved_ocr_success", "False"), ("regex_success", "False"),
            ("llm_available", bstr llm_available), ("complete_failure", "True"),
            ("final_error", e)] }
      | .ok t =>
        let regexR2 := extract_check_info t
        if regexR2.extraction_success then
          { raw_text := t
            structured_data := some (regexToStructured regexR2)
            success := true
            error := none
            debug_info := [("improved_ocr_success", "False"), ("regex_success", "True"),
              ("llm_available", bstr llm_available), ("method_used", "simple_ocr + regex")] }
        else
          { raw_text := t
            structured_data := some
              { payee_name := none, date := none, amount := none, memo := some "",
                routing_number := "", account_number := "", check_number := "",
                raw_text := t, extraction_success := false, method := "raw_ocr_only" }
            success := true
            error := none
            debug_info := [("improved_ocr_success", "False"), ("regex_success", "False"),
              ("llm_available", bstr llm_available), ("method_used", "raw_ocr_only")] }

end Main

/-! ## ROIConfigurator (roi_config.py) -/

namespace ROIConfigurator

/-- A relative bounding box: x, y, width, height, each a fraction of the
image size. -/
abbrev RelBox := Rat × Rat × Rat × Rat

/-- The user_check preset. -/
def user_check_layout : List (String × RelBox) :=
  [("date", (0.75, 0.04, 0.22, 0.06)),
   ("payee", (0.15, 0.18, 0.45, 0.06)),
   ("amount_numeric", (0.65, 0.18, 0.30, 0.06)),
   ("amount_words", (0.05, 0.27, 0.90, 0.06)),
   ("memo", (0.15, 0.47, 0.45, 0.06))]

/-- The standard preset. -/
def standard_layout : List (String × RelBox) :=
  [("date", (0.72, 0.07, 0.24, 0.08)),
   ("payee", (0.12, 0.30, 0.75, 0.10)),
   ("amount_numeric", (0.72, 0.36, 0.24, 0.12)),
   ("amount_words", (0.08, 0.43, 0.82, 0.10)),
   ("memo", (0.12, 0.55, 0.75, 0.08))]

/-- The business_check preset. -/
def business_check_layout : List (String × RelBox) :=
  [("date", (0.70, 0.05, 0.26, 0.10)),
   ("payee", (0.10, 0.28, 0.80, 0.12)),
   ("amount_numeric", (0.70, 0.34, 0.26, 0.14)),
   ("amount_words", (0.06, 0.41, 0.85, 0.12)),
   ("memo", (0.10, 0.53, 0.80, 0.10))]

/-- The personal_check preset. -/
def personal_check_layout : List (String × RelBox) :=
  [("date", (0.74, 0.09, 0.22, 0.06)),
   ("payee", (0.14, 0.32, 0.70, 0.08)),
   ("amount_numeric", (0.74, 0.38, 0.22, 0.10)),
   ("amount_words", (0.10, 0.45, 0.78, 0.08)),
   ("memo", (0.14, 0.57, 0.70, 0.06))]

/-- The preset dictionary in insertion order. -/
def roi_presets : List (String × List (String × RelBox)) :=
  [("user_check", user_check_layout),
   ("standard", standard_layout),
   ("business_check", business_check_layout),
   ("personal_check", personal_check_layout)]

/-- get_roi_config: dictionary get with the standard preset as default. -/
def get_roi_config (preset : String) : List (String × RelBox) :=
  (roi_presets.lookup preset).getD standard_layout

/-- The layout selection step of visualize_rois, the same dictionary get
with the standard preset as default. -/
def visualize_rois_layout (roi_config : String) : List (String × RelBox) :=
  (roi_presets.lookup roi_config).getD standard_layout

end ROIConfigurator

/-! ## Definitions used by the claim statements -/

namespace RegexCheckExtractor

/-- The extract_date method on a string input. -/
def extract_date (t : String) : Option String :=
  (extract_date_go datePatterns t.data).map String.mk

/-- The extract_amount method on a string input. -/
def extract_amount (t : String) : Option String :=
  (extract_amount_go amountPatterns t.data).map String.mk

/-- The number of non-null fields among three optional fields. -/
def nonNull3 (a b c : Option String) : Nat :=
  (if a.isSome then 1 else 0) + (if b.isSome then 1 else 0) + (if c.isSome then 1 else 0)

end RegexCheckExtractor

namespace ImprovedCheckOCR

/-- The letter count of an optional payee field, zero when absent. -/
def letterCountO : Option String → Nat
  | none => 0
  | some p => letterCount p

/-- The first payee scan the code runs, on the plain (non-deskewed)
preprocessed image. -/
def payeeFirstPass (env : OcrEnv) : String := ocr_text (env.eng .payeeOrig) 7

/-- The fallback payee scan, on the deskewed variant. -/
def payeeSecondPass (env : OcrEnv) : String := ocr_text (env.eng .payeeDeskew) 7

/-- Following the specification's words, not the source: the payee scan it
describes runs on the deskewed image first and falls back to the
non-deskewed original exactly when the deskewed result scores fewer than 3
alphanumeric characters. -/
def payee_spec_twopass (env : OcrEnv) : String :=
  let d := ocr_text (env.eng .payeeDeskew) 7
  if alnumCount d < 3 then ocr_text (env.eng .payeeOrig) 7 else d

/-- Following the specification's words, not the source: candidate
selection over the recognition modes uniform text block (psm 6), single
line (psm 7), single word (psm 8) and raw line (psm 13) in that fixed
order, with the same scoring and tie-break as the code. -/
def ocr_text_specOrder (engine : Nat → Option String) : String :=
  [6, 7, 8, 13].foldl (fun best c =>
    match engine c with
    | none => best
    | some t =>
      let t1 := String.mk (pyStrip t.data)
      if alnumCount best < alnumCount t1 then t1 else best) ""

/-- The stripped texts of the successful engine invocations, in invocation
order. -/
def candidateTexts (engine : Nat → Option String) (psm : Nat) : List String :=
  (configList psm).filterMap (fun c => (engine c).map (fun t => String.mk (pyStrip t.data)))

/-- The selection fold of ocr_text, on an explicit candidate list. -/
def pickBest (best : String) (l : List String) : String :=
  l.foldl (fun b t => if alnumCount b < alnumCount t then t else b) best

end ImprovedCheckOCR

/-! ## Concrete instances used by counterexamples and witnesses -/

/-- The end-to-end OCR text of the specification's scenario. -/
def c1Input : String := "09-25-2012\n\"Roy Ang\" $123,456.00\nDonation for Education"

/-- An engine assignment on which the code's configuration order and the
specification's claimed mode order select different texts: psm 6 reads a
text that ties with the psm 7 text on alphanumeric count. -/
def c6engine : Nat → Option String := fun c =>
  if c = 6 then some "ab" else if c = 7 then some "cd" else some ""

/-- An engine assignment for the candidate-selection witness: four
successful reads with a unique best. -/
def c6engineW : Nat → Option String := fun c =>
  if c = 6 then some "a" else if c = 7 then some "bbb"
  else if c = 8 then some "cc" else some "dd"

/-- An engine assignment whose every read is nonempty but scores zero
alphanumeric characters. -/
def c6engineZ : Nat → Option String := fun _ => some "--"

/-- An environment in which the plain and the deskewed payee reads both
score at least 3 but differ, separating the code's pass order from the
specification's. -/
def c7env : ImprovedCheckOCR.OcrEnv :=
  { eng := fun tag _ =>
      match tag with
      | .payeeOrig => some "Alice"
      | .payeeDeskew => some "Bobby"
      | _ => none
    fullText := some "r"
    fallbackText := none
    parseDateFn := fun _ => "" }

/-- An environment in which ROI extraction succeeds with exactly two core
fields: the date comes from the parser oracle, the amount from the engine,
and the payee reads are empty. -/
def c2env : ImprovedCheckOCR.OcrEnv :=
  { eng := fun tag _ =>
      match tag with
      | .amountNumRoi => some "123.45"
      | _ => none
    fullText := some "raw text"
    fallbackText := none
    parseDateFn := fun _ => "2012-09-25" }

/-- An LLM result with all three core fields present. -/
def c2llm : Main.LLMResult :=
  { payee_name := some "Jane Doe", date := some "2020-01-01",
    amount := some "50.00", memo := some "rent" }

/-- An environment in which the OCR engine always returns empty text, so
every extraction stage fails. -/
def c3env : ImprovedCheckOCR.OcrEnv :=
  { eng := fun _ _ => some ""
    fullText := some ""
    fallbackText := none
    parseDateFn := fun _ => "" }

/-! ## Supporting lemmas -/

namespace RegexCheckExtractor

/-- A payee accepted by the validity check has length above one. -/
theorem extract_payee_go_len : ∀ (ps : List RE) (t l : List Char),
    extract_payee_go ps t = some l → 1 < l.length := by
  intro ps
  induction ps with
  | nil => intro t l h; simp [extract_payee_go] at h
  | cons p ps ih =>
    intro t l h
    unfold extract_payee_go at h
    cases hq : reSearch true p t with
    | none => simp only [hq] at h; exact ih t l h
    | some m =>
      simp only [hq] at h
      split at h
      · rename_i hc
        injection h with h1
        subst h1
        have := (Bool.and_eq_true _ _).mp hc
        exact of_decide_eq_true this.1
      · exact ih t l h

/-- The amount cleanup keeps only digits, periods and commas. -/
theorem amountClean_all (g : List Char) :
    (amountClean g).all (fun c => c.isDigit || c = '.' || c = ',') = true := by
  apply List.all_eq_true.mpr
  intro x hx
  exact (List.mem_filter.mp hx).2

/-- A converted written amount is one of the nonempty numeric literals. -/
theorem convert_written_sound : ∀ (t l : List Char), convert_written_amount t = some l →
    l ≠ [] ∧ l.all (fun c => c.isDigit || c = '.' || c = ',') = true := by
  intro t l h
  unfold convert_written_amount at h
  cases hq : reSearch true writtenPattern t with
  | none => simp only [hq] at h; exact absurd h (by simp)
  | some m =>
    simp only [hq] at h
    split at h
    · injection h with h1; subst h1; exact ⟨by decide, by decide⟩
    · split at h
      · injection h with h1; subst h1; exact ⟨by decide, by decide⟩
      · split at h
        · injection h with h1; subst h1; exact ⟨by decide, by decide⟩
        · exact absurd h (by simp)

/-- Every amount the extractor returns is nonempty and made of digits,
periods and commas. -/
theorem extract_amount_go_sound : ∀ (ps : List RE) (t l : List Char),
    extract_amount_go ps t = some l →
    l ≠ [] ∧ l.all (fun c => c.isDigit || c = '.' || c = ',') = true := by
  intro ps
  induction ps with
  | nil => intro t l h; exact convert_written_sound t l h
  | cons p ps ih =>
    intro t l h
    unfold extract_amount_go at h
    cases hq : reSearch false p t with
    | none => simp only [hq] at h; exact ih t l h
    | some m =>
      simp only [hq] at h
      split at h
      · exact ih t l h
      · rename_i hne
        injection h with h1
        subst h1
        refine ⟨?_, amountClean_all _⟩
        intro hnil
        rw [hnil] at hne
        exact hne rfl

/-- A formatted date is never the empty string. -/
theorem strftimeYmd_ne_nil (d : PyDate) : strftimeYmd d ≠ [] := by
  unfold strftimeYmd
  cases Nat.toDigits 10 d.y <;> simp

/-- A normalized date is the formatting of some parsed date. -/
theorem normalize_date_shape : ∀ (ds l : List Char), normalize_date ds = some l →
    ∃ d, l = strftimeYmd d := by
  intro ds l h
  unfold normalize_date at h
  split at h
  · rcases Option.map_eq_some'.mp h with ⟨d, _, rfl⟩
    exact ⟨d, rfl⟩
  · split at h
    · rcases Option.map_eq_some'.mp h with ⟨d, _, rfl⟩
      exact ⟨d, rfl⟩
    · rcases Option.map_eq_some'.mp h with ⟨d, _, rfl⟩
      exact ⟨d, rfl⟩

/-- A date the extractor returns is never the empty string. -/
theorem extract_date_go_ne_nil : ∀ (ps : List RE) (t l : List Char),
    extract_date_go ps t = some l → l ≠ [] := by
  intro ps
  induction ps with
  | nil => intro t l h; simp [extract_date_go] at h
  | cons p ps ih =>
    intro t l h
    unfold extract_date_go at h
    cases hq : reSearch true p t with
    | none => simp only [hq] at h; exact ih t l h
    | some m =>
      simp only [hq] at h
      cases hn : normalize_date (pyStrip m.matched) with
      | none => rw [hn] at h; exact ih t l h
      | some r =>
        rw [hn] at h
        injection h with h1
        subst h1
        rcases normalize_date_shape _ _ hn with ⟨d, rfl⟩
        exact strftimeYmd_ne_nil d

/-- For the payee field, Python truthiness agrees with being non-null
because an accepted payee is nonempty. -/
theorem truthyO_eq_isSome_payee (t : List Char) :
    truthyO ((extract_payee_go payeePatterns t).map String.mk)
      = ((extract_payee_go payeePatterns t).map String.mk).isSome := by
  cases hp : extract_payee_go payeePatterns t with
  | none => rfl
  | some l =>
    have h1 : 1 < l.length := extract_payee_go_len _ _ _ hp
    simp only [Option.map_some', truthyO, Option.isSome_some]
    cases l with
    | nil => simp at h1
    | cons c cs => rfl

/-- For the date field, Python truthiness agrees with being non-null. -/
theorem truthyO_eq_isSome_date (t : List Char) :
    truthyO ((extract_date_go datePatterns t).map String.mk)
      = ((extract_date_go datePatterns t).map String.mk).isSome := by
  cases hp : extract_date_go datePatterns t with
  | none => rfl
  | some l =>
    have h1 : l ≠ [] := extract_date_go_ne_nil _ _ _ hp
    simp only [Option.map_some', truthyO, Option.isSome_some]
    cases l with
    | nil => simp at h1
    | cons c cs => rfl

/-- For the amount field, Python truthiness agrees with being non-null. -/
theorem truthyO_eq_isSome_amount (t : List Char) :
    truthyO ((extract_amount_go amountPatterns t).map String.mk)
      = ((extract_amount_go amountPatterns t).map String.mk).isSome := by
  cases hp : extract_amount_go amountPatterns t with
  | none => rfl
  | some l =>
    have h1 : l ≠ [] := (extract_amount_go_sound _ _ _ hp).1
    simp only [Option.map_some', truthyO, Option.isSome_some]
    cases l with
    | nil => simp at h1
    | cons c cs => rfl

end RegexCheckExtractor

namespace ImprovedCheckOCR

/-- A payee with at least three letters is nonempty, so its truthiness
conjunct in the ROI success count is redundant. -/
theorem payeeGate (p : String) :
    (truthyStr p && decide (3 ≤ letterCount p)) = decide (3 ≤ letterCount p) := by
  by_cases h : 3 ≤ letterCount p
  · have hne : p.data ≠ [] := by
      intro hd
      unfold letterCount at h
      rw [hd] at h
      simp at h
    have ht : truthyStr p = true := by
      unfold truthyStr
      cases hp : p.data with
      | nil => exact absurd hp hne
      | cons c cs => rfl
    simp [ht, h]
  · simp [h]

/-- The selection fold never decreases the score of its accumulator. -/
theorem pickBest_acc_le : ∀ (l : List String) (b : String),
    alnumCount b ≤ alnumCount (pickBest b l) := by
  intro l
  induction l with
  | nil => intro b; exact Nat.le_refl _
  | cons t ts ih =>
    intro b
    show alnumCount b ≤ alnumCount (pickBest (if alnumCount b < alnumCount t then t else b) ts)
    by_cases hc : alnumCount b < alnumCount t
    · rw [if_pos hc]
      exact Nat.le_trans (Nat.le_of_lt hc) (ih t)
    · rw [if_neg hc]
      exact ih b

/-- The selection fold scores at least every candidate. -/
theorem pickBest_mem_le : ∀ (l : List String) (b t : String), t ∈ l →
    alnumCount t ≤ alnumCount (pickBest b l) := by
  intro l
  induction l with
  | nil => intro b t ht; cases ht
  | cons u us ih =>
    intro b t ht
    rcases List.mem_cons.mp ht with rfl | hmem
    · show alnumCount t ≤ alnumCount (pickBest (if alnumCount b < alnumCount t then t else b) us)
      by_cases hc : alnumCount b < alnumCount t
      · rw [if_pos hc]; exact pickBest_acc_le us t
      · rw [if_neg hc]
        exact Nat.le_trans (Nat.le_of_not_lt hc) (pickBest_acc_le us b)
    · exact ih _ t hmem

/-- The selection fold returns the accumulator or one of the candidates. -/
theorem pickBest_cases : ∀ (l : List String) (b : String),
    pickBest b l = b ∨ pickBest b l ∈ l := by
  intro l
  induction l with
  | nil => intro b; exact Or.inl rfl
  | cons u us ih =>
    intro b
    have hstep : pickBest b (u :: us) =
        pickBest (if alnumCount b < alnumCount u then u else b) us := rfl
    rw [hstep]
    by_cases hc : alnumCount b < alnumCount u
    · rw [if_pos hc]
      rcases ih u with h | h
      · exact Or.inr (List.mem_cons.mpr (Or.inl h))
      · exact Or.inr (List.mem_cons.mpr (Or.inr h))
    · rw [if_neg hc]
      rcases ih b with h | h
      · exact Or.inl h
      · exact Or.inr (List.mem_cons.mpr (Or.inr h))

/-- The selection fold keeps its accumulator when no candidate strictly
beats it: ties keep the earlier text. -/
theorem pickBest_stay : ∀ (l : List String) (b : String),
    (∀ u ∈ l, alnumCount u ≤ alnumCount b) → pickBest b l = b := by
  intro l
  induction l with
  | nil => intro b _; rfl
  | cons u us ih =>
    intro b hle
    show pickBest (if alnumCount b < alnumCount u then u else b) us = b
    rw [if_neg (Nat.not_lt.mpr (hle u (List.mem_cons_self u us)))]
    exact ih b (fun v hv => hle v (List.mem_cons.mpr (Or.inr hv)))

/-- The selection fold returns the first candidate that attains the
maximal score when that score beats the accumulator. -/
theorem pickBest_first : ∀ (l1 : List String) (t : String) (l2 : List String) (b : String),
    (∀ u ∈ l1, alnumCount u < alnumCount t) →
    (∀ u ∈ l2, alnumCount u ≤ alnumCount t) →
    alnumCount b < alnumCount t →
    pickBest b (l1 ++ t :: l2) = t := by
  intro l1
  induction l1 with
  | nil =>
    intro t l2 b _ h2 hb
    show pickBest (if alnumCount b < alnumCount t then t else b) l2 = t
    rw [if_pos hb]
    exact pickBest_stay l2 t h2
  | cons u us ih =>
    intro t l2 b h1 h2 hb
    show pickBest (if alnumCount b < alnumCount u then u else b) (us ++ t :: l2) = t
    by_cases hc : alnumCount b < alnumCount u
    · rw [if_pos hc]
      exact ih t l2 u (fun v hv => h1 v (List.mem_cons.mpr (Or.inr hv))) h2
        (h1 u (List.mem_cons_self u us))
    · rw [if_neg hc]
      exact ih t l2 b (fun v hv => h1 v (List.mem_cons.mpr (Or.inr hv))) h2 hb

/-- The candidate fold of ocr_text equals the selection fold on the
filtered candidate list. -/
theorem foldl_eq_pickBest (engine : Nat → Option String) : ∀ (cs : List Nat) (b : String),
    cs.foldl (fun best c =>
      match engine c with
      | none => best
      | some t =>
        let t1 := String.mk (pyStrip t.data)
        if alnumCount best < alnumCount t1 then t1 else best) b
    = pickBest b (cs.filterMap (fun c => (engine c).map (fun t => String.mk (pyStrip t.data)))) := by
  intro cs
  induction cs with
  | nil => intro b; rfl
  | cons c cs ih =>
    intro b
    cases he : engine c with
    | none => simp [List.foldl_cons, List.filterMap_cons, he, ih]
    | some t => simp [List.foldl_cons, List.filterMap_cons, he, ih, pickBest]

/-- ocr_text is the selection fold over its candidate texts. -/
theorem ocr_text_eq_pickBest (engine : Nat → Option String) (psm : Nat) :
    ocr_text engine psm = pickBest "" (candidateTexts engine psm) := by
  unfold ocr_text candidateTexts
  exact foldl_eq_pickBest engine (configList psm) ""

end ImprovedCheckOCR

namespace Main

open RegexCheckExtractor ImprovedCheckOCR

/-- Every branch of the endpoint attaches a nonempty diagnostic trail. -/
theorem ocr_debug_info_ne_nil (env : OcrEnv) (b : Bool) (llm : Except String LLMResult)
    (simple : Except String String) :
    (Main.ocr env b llm simple).debug_info ≠ [] := by
  unfold Main.ocr
  by_cases hs : (extract_check_fields env).extraction_success = true
  · by_cases hb : b = true
    · cases llm with
      | ok l =>
        by_cases hcmp : count3 (extract_check_fields env).payee_name
            (extract_check_fields env).date (extract_check_fields env).amount <
            count3 l.payee_name l.date l.amount
        · simp [hs, hb, hcmp]
        · by_cases hr : (extract_check_info
              (extract_check_fields env).raw_text).extraction_success = true
          · simp [hs, hb, hcmp, hr]
          · simp [hs, hb, hcmp, hr]
      | error e =>
        by_cases hr : (extract_check_info
            (extract_check_fields env).raw_text).extraction_success = true
        · simp [hs, hb, hr]
        · simp [hs, hb, hr]
    · simp [hs, hb]
  · by_cases hr : (extract_check_info
        (extract_check_fields env).raw_text).extraction_success = true
    · simp [hs, hr]
    · cases simple with
      | error e => simp [hs, hr]
      | ok t =>
        by_cases hr2 : (extract_check_info t).extraction_success = true
        · simp [hs, hr, hr2]
        · simp [hs, hr, hr2]

/-- When ROI extraction, the regex layer on its text, and the regex layer
on the plain OCR text all fail, the endpoint returns the raw-text
fallback response. -/
theorem ocr_all_fail_shape (env : OcrEnv) (b : Bool) (llm : Except String LLMResult)
    (t : String)
    (h1 : (extract_check_fields env).extraction_success = false)
    (h2 : (extract_check_info (extract_check_fields env).raw_text).extraction_success = false)
    (h3 : (extract_check_info t).extraction_success = false) :
    Main.ocr env b llm (.ok t) =
      { raw_text := t
        structured_data := some
          { payee_name := none, date := none, amount := none, memo := some "",
            routing_number := "", account_number := "", check_number := "",
            raw_text := t, extraction_success := false, method := "raw_ocr_only" }
        success := true
        error := none
        debug_info := [("improved_ocr_success", "False"), ("regex_success", "False"),
          ("llm_available", bstr b), ("method_used", "raw_ocr_only")] } := by
  simp only [Main.ocr, h1, h2, h3]
  simp

end Main

/-! ## Claim theorems -/

set_option maxRecDepth 40000

open RegexCheckExtractor ImprovedCheckOCR Main ROIConfigurator

/-- C1: on the OCR text of the end-to-end scenario, extract_check_info
returns date 2012-09-25, payee Roy Ang, memo Donation for Education and
reports success, but the amount keeps the thousands separator: it is
"123,456.00", not the "123456.00" the claim and the repository's own
test expect, because the amount cleanup deletes only characters outside
digits, periods and commas. -/
theorem c1_end_to_end_eval :
    (extract_check_info c1Input).date = some "2012-09-25" ∧
    (extract_check_info c1Input).payee_name = some "Roy Ang" ∧
    (extract_check_info c1Input).memo = "Donation for Education" ∧
    (extract_check_info c1Input).extraction_success = true ∧
    (extract_check_info c1Input).amount = some "123,456.00" ∧
    (extract_check_info c1Input).amount ≠ some "123456.00" := by
  refine ⟨?_, ?_, ?_, ?_, ?_, ?_⟩ <;> decide

/-- C2: when ROI extraction succeeds, the LLM capability is available, the
LLM call returns, and the LLM result has strictly more truthy core fields
than the ROI result, the endpoint's structured result carries the LLM's
payee, date, amount and memo together with the MICR fields looked up from
the ROI result (whose dictionary lacks them, so they default to empty). -/
theorem c2_llm_merge (env : OcrEnv) (l : LLMResult) (simple : Except String String)
    (h1 : (extract_check_fields env).extraction_success = true)
    (h2 : count3 (extract_check_fields env).payee_name (extract_check_fields env).date
        (extract_check_fields env).amount < count3 l.payee_name l.date l.amount) :
    (Main.ocr env true (.ok l) simple).structured_data = some
      { payee_name := l.payee_name, date := l.date, amount := l.amount, memo := l.memo,
        routing_number := improvedGetRouting (extract_check_fields env),
        account_number := improvedGetAccount (extract_check_fields env),
        check_number := improvedGetCheckNum (extract_check_fields env),
        raw_text := (extract_check_fields env).raw_text, extraction_success := true,
        method := "improved_ocr + llm" } := by
  simp only [Main.ocr, h1, if_true, h2]

/-- C2 witness: a concrete environment with two truthy ROI fields and an
LLM result with three. -/
theorem c2_llm_merge_witness :
    (extract_check_fields c2env).extraction_success = true ∧
    count3 (extract_check_fields c2env).payee_name (extract_check_fields c2env).date
      (extract_check_fields c2env).amount < count3 c2llm.payee_name c2llm.date c2llm.amount ∧
    (Main.ocr c2env true (.ok c2llm) (.ok "t")).structured_data = some
      { payee_name := c2llm.payee_name, date := c2llm.date, amount := c2llm.amount,
        memo := c2llm.memo, routing_number := improvedGetRouting (extract_check_fields c2env),
        account_number := improvedGetAccount (extract_check_fields c2env),
        check_number := improvedGetCheckNum (extract_check_fields c2env),
        raw_text := (extract_check_fields c2env).raw_text, extraction_success := true,
        method := "improved_ocr + llm" } :=
  ⟨by decide, by decide, c2_llm_merge c2env c2llm (.ok "t") (by decide) (by decide)⟩

/-- C3: the endpoint is a total function whose every branch returns a
response with a nonempty diagnostic trail, and whenever ROI extraction and
both regex passes fail it returns the plain OCR text with every
structured field null or empty, extraction_success false and the
raw-ocr-only trail. -/
theorem c3_never_raises_fallback (env : OcrEnv) (b : Bool) (llm : Except String LLMResult)
    (simple : Except String String) :
    (Main.ocr env b llm simple).debug_info ≠ [] ∧
    (∀ t : String, simple = .ok t →
      (extract_check_fields env).extraction_success = false →
      (extract_check_info (extract_check_fields env).raw_text).extraction_success = false →
      (extract_check_info t).extraction_success = false →
      Main.ocr env b llm simple =
        { raw_text := t
          structured_data := some
            { payee_name := none, date := none, amount := none, memo := some "",
              routing_number := "", account_number := "", check_number := "",
              raw_text := t, extraction_success := false, method := "raw_ocr_only" }
          success := true
          error := none
          debug_info := [("improved_ocr_success", "False"), ("regex_success", "False"),
            ("llm_available", bstr b), ("method_used", "raw_ocr_only")] }) := by
  refine ⟨ocr_debug_info_ne_nil env b llm simple, ?_⟩
  intro t ht h1 h2 h3
  subst ht
  exact ocr_all_fail_shape env b llm t h1 h2 h3

/-- C3 witness: an engine that always reads empty text drives the endpoint
to the final fallback. -/
theorem c3_never_raises_fallback_witness :
    (Main.ocr c3env false (.error "boom") (.ok "zz")).debug_info ≠ [] ∧
    Main.ocr c3env false (.error "boom") (.ok "zz") =
      { raw_text := "zz"
        structured_data := some
          { payee_name := none, date := none, amount := none, memo := some "",
            routing_number := "", account_number := "", check_number := "",
            raw_text := "zz", extraction_success := false, method := "raw_ocr_only" }
        success := true
        error := none
        debug_info := [("improved_ocr_success", "False"), ("regex_success", "False"),
          ("llm_available", bstr false), ("method_used", "raw_ocr_only")] } :=
  ⟨(c3_never_raises_fallback c3env false (.error "boom") (.ok "zz")).1,
   (c3_never_raises_fallback c3env false (.error "boom") (.ok "zz")).2 "zz" rfl
     (by decide) (by decide) (by decide)⟩

/-- C4 counterexample: the regex layer keeps the thousands separator in
"$ 123,456.00", extracts "234.56" rather than "1234.56" from
"1234.56 dollars" because the standalone-decimal pattern limits the
integer part to three digits and the search takes the leftmost match, and
returns "500" with no fraction digits for "$500". -/
theorem c4_counterexample :
    extract_amount "$ 123,456.00" = some "123,456.00" ∧
    extract_amount "$ 123,456.00" ≠ some "123456.00" ∧
    extract_amount "1234.56 dollars" = some "234.56" ∧
    extract_amount "1234.56 dollars" ≠ some "1234.56" ∧
    extract_amount "$500" = some "500" := by
  refine ⟨?_, ?_, ?_, ?_, ?_⟩ <;> decide

/-- C4 amended: every non-null amount the regex layer produces is a
nonempty string of digits, periods and commas (two fraction digits and
comma removal are not guaranteed); "$ 123,456.00" maps to "123,456.00",
"1234.56 dollars" maps to "234.56", and a text with no numeric or written
amount pattern maps to null. -/
theorem c4_amount_form :
    (∀ t s, extract_amount t = some s →
      s.data ≠ [] ∧ s.data.all (fun c => c.isDigit || c = '.' || c = ',') = true) ∧
    extract_amount "$ 123,456.00" = some "123,456.00" ∧
    extract_amount "1234.56 dollars" = some "234.56" ∧
    extract_amount "hello world" = none := by
  refine ⟨?_, by decide, by decide, by decide⟩
  intro t s h
  unfold extract_amount at h
  rcases Option.map_eq_some'.mp h with ⟨l, hl, rfl⟩
  exact extract_amount_go_sound _ _ _ hl

/-- C4 witness: the universal amount shape at a concrete input. -/
theorem c4_amount_form_witness :
    ("500" : String).data ≠ [] ∧
    ("500" : String).data.all (fun c => c.isDigit || c = '.' || c = ',') = true :=
  c4_amount_form.1 "$500" "500" (by decide)

/-- C5: extract_check_info reports success exactly when at least two of
the payee, date and amount fields of its result are non-null; the memo
and MICR fields do not occur in that count. -/
theorem c5_success_criterion (text : String) :
    (extract_check_info text).extraction_success = true ↔
      2 ≤ nonNull3 (extract_check_info text).payee_name (extract_check_info text).date
        (extract_check_info text).amount := by
  have hs : (extract_check_info text).extraction_success =
      decide (2 ≤ count3 ((extract_payee_go payeePatterns (clean_text text.data)).map String.mk)
        ((extract_date_go datePatterns (clean_text text.data)).map String.mk)
        ((extract_amount_go amountPatterns (clean_text text.data)).map String.mk)) := rfl
  have hp : (extract_check_info text).payee_name =
      (extract_payee_go payeePatterns (clean_text text.data)).map String.mk := rfl
  have hd : (extract_check_info text).date =
      (extract_date_go datePatterns (clean_text text.data)).map String.mk := rfl
  have ha : (extract_check_info text).amount =
      (extract_amount_go amountPatterns (clean_text text.data)).map String.mk := rfl
  rw [hs, hp, hd, ha, decide_eq_true_iff]
  have hcount : count3 ((extract_payee_go payeePatterns (clean_text text.data)).map String.mk)
      ((extract_date_go datePatterns (clean_text text.data)).map String.mk)
      ((extract_amount_go amountPatterns (clean_text text.data)).map String.mk)
      = nonNull3 ((extract_payee_go payeePatterns (clean_text text.data)).map String.mk)
      ((extract_date_go datePatterns (clean_text text.data)).map String.mk)
      ((extract_amount_go amountPatterns (clean_text text.data)).map String.mk) := by
    unfold count3 nonNull3
    rw [truthyO_eq_isSome_payee, truthyO_eq_isSome_date, truthyO_eq_isSome_amount]
  rw [hcount]

/-- C6 counterexample: the code runs configurations [psm, 7, 8, 6], not
the claimed uniform-block, single-line, single-word, raw-line order; on an
engine whose psm 6 and psm 7 reads tie on alphanumeric count, the code
called with psm 7 keeps the psm 7 text while the claimed order would keep
the psm 6 text. -/
theorem c6_counterexample :
    configList 7 ≠ [6, 7, 8, 13] ∧
    ocr_text c6engine 7 = "cd" ∧
    ocr_text_specOrder c6engine = "ab" ∧
    ocr_text c6engine 7 ≠ ocr_text_specOrder c6engine := by
  refine ⟨?_, ?_, ?_, ?_⟩ <;> decide

/-- C6 amended: ocr_text invokes the engine once per configuration in the
fixed order caller psm, single line, single word, uniform block, skipping
failed invocations; its result scores at least every candidate, is one of
the candidates or the empty string, equals the first candidate attaining
the maximal alphanumeric score whenever that score is positive, and is
the empty string when every candidate scores zero. -/
theorem c6_candidate_selection (engine : Nat → Option String) (psm : Nat) :
    configList psm = [psm, 7, 8, 6] ∧
    (∀ t ∈ candidateTexts engine psm, alnumCount t ≤ alnumCount (ocr_text engine psm)) ∧
    (ocr_text engine psm = "" ∨ ocr_text engine psm ∈ candidateTexts engine psm) ∧
    (∀ (l1 : List String) (t : String) (l2 : List String),
      candidateTexts engine psm = l1 ++ t :: l2 →
      (∀ u ∈ l1, alnumCount u < alnumCount t) →
      (∀ u ∈ l2, alnumCount u ≤ alnumCount t) →
      0 < alnumCount t → ocr_text engine psm = t) ∧
    ((∀ u ∈ candidateTexts engine psm, alnumCount u = 0) →
      ocr_text engine psm = "") := by
  refine ⟨rfl, ?_, ?_, ?_, ?_⟩
  · intro t ht
    rw [ocr_text_eq_pickBest]
    exact pickBest_mem_le _ _ _ ht
  · rw [ocr_text_eq_pickBest]
    exact pickBest_cases _ _
  · intro l1 t l2 heq h1 h2 h0
    rw [ocr_text_eq_pickBest, heq]
    exact pickBest_first l1 t l2 "" h1 h2 h0
  · intro hz
    rw [ocr_text_eq_pickBest]
    exact pickBest_stay _ "" (fun u hu => Nat.le_of_eq (hz u hu))

/-- C6 witness: selection on four concrete reads returns the unique
highest-scoring one, and an all-punctuation engine yields the empty
string. -/
theorem c6_candidate_selection_witness :
    (candidateTexts c6engineW 6 = ["a", "bbb", "cc", "a"] ∧ ocr_text c6engineW 6 = "bbb") ∧
    ocr_text c6engineZ 6 = "" :=
  ⟨⟨by decide, (c6_candidate_selection c6engineW 6).2.2.2.1 ["a"] "bbb" ["cc", "a"]
      (by decide) (by decide) (by decide) (by decide)⟩,
   (c6_candidate_selection c6engineZ 6).2.2.2.2 (by decide)⟩

/-- C7 counterexample: with both payee reads scoring at least 3, the code
keeps the read of the plain (non-deskewed) image, while the
specification's deskewed-first scan would keep the deskewed read. -/
theorem c7_counterexample :
    (extract_check_fields c7env).payee_name = some "Alice" ∧
    payee_spec_twopass c7env = "Bobby" ∧
    (extract_check_fields c7env).payee_name ≠
      some (String.mk (roiFieldClean (payee_spec_twopass c7env).data)) := by
  refine ⟨?_, ?_, ?_⟩ <;> decide

/-- C7 amended: the payee scan first runs against the plain non-deskewed
image, and the deskewed variant is scanned, and its result used, exactly
when the first pass scores fewer than 3 alphanumeric characters. -/
theorem c7_payee_two_pass (env : OcrEnv) (full : String) (hf : env.fullText = some full) :
    (3 ≤ alnumCount (payeeFirstPass env) →
      (extract_check_fields env).payee_name =
        some (String.mk (roiFieldClean (payeeFirstPass env).data))) ∧
    (alnumCount (payeeFirstPass env) < 3 →
      (extract_check_fields env).payee_name =
        some (String.mk (roiFieldClean (payeeSecondPass env).data))) := by
  constructor
  · intro h
    simp only [payeeFirstPass] at h
    simp only [extract_check_fields, hf, payeeFirstPass]
    rw [if_neg (Nat.not_lt.mpr h)]
  · intro h
    simp only [payeeFirstPass] at h
    simp only [extract_check_fields, hf, payeeSecondPass]
    rw [if_pos h]

/-- C7 witness: the first pass scores 5, so its cleaned text is the
payee. -/
theorem c7_payee_two_pass_witness :
    3 ≤ alnumCount (payeeFirstPass c7env) ∧
    (extract_check_fields c7env).payee_name =
      some (String.mk (roiFieldClean (payeeFirstPass c7env).data)) :=
  ⟨by decide, (c7_payee_two_pass c7env "r" rfl).1 (by decide)⟩

/-- C8: date extraction maps 09-25-2012 to 2012-09-25 and 12/15/2023 to
2023-12-15, returns null on ABCDEF, and normalizes a dash-separated match
by attempting month-day-4-digit-year, then year-month-day, then
month-day-2-digit-year in that order. -/
theorem c8_date_normalization :
    extract_date "09-25-2012" = some "2012-09-25" ∧
    extract_date "12/15/2023" = some "2023-12-15" ∧
    extract_date "ABCDEF" = none ∧
    (∀ ds : List Char, ds.contains '-' = true →
      normalize_date ds =
        (match strptime_mdY '-' ds with
         | some d => some d
         | none =>
           match strptime_Ymd '-' ds with
           | some d => some d
           | none => strptime_mdy '-' ds).map strftimeYmd) := by
  refine ⟨by decide, by decide, by decide, ?_⟩
  intro ds h
  unfold normalize_date
  rw [if_pos h]

/-- C8 witness: the dash normalization order at a concrete unparseable
date. -/
theorem c8_date_normalization_witness :
    ("02-30-2012".data.contains '-') = true ∧
    normalize_date "02-30-2012".data =
      (match strptime_mdY '-' "02-30-2012".data with
       | some d => some d
       | none =>
         match strptime_Ymd '-' "02-30-2012".data with
         | some d => some d
         | none => strptime_mdy '-' "02-30-2012".data).map strftimeYmd :=
  ⟨by decide, c8_date_normalization.2.2.2 "02-30-2012".data (by decide)⟩

/-- C9: ROI extraction reports success exactly when at least two hold of:
the cleaned payee has at least 3 letters, the date is truthy, the amount
is truthy; the payee requirement is stricter than mere non-nullness. -/
theorem c9_roi_success_criterion (env : OcrEnv) :
    (extract_check_fields env).extraction_success = true ↔
      2 ≤ ((if 3 ≤ letterCountO (extract_check_fields env).payee_name then 1 else 0)
        + (if truthyO (extract_check_fields env).date then 1 else 0)
        + (if truthyO (extract_check_fields env).amount then 1 else 0)) := by
  cases hf : env.fullText with
  | none =>
    cases hb : env.fallbackText with
    | none => simp [extract_check_fields, hf, hb, letterCountO, truthyO]
    | some fb => simp [extract_check_fields, hf, hb, letterCountO, truthyO]
  | some full =>
    simp only [extract_check_fields, hf]
    rw [payeeGate]
    simp [letterCountO, truthyO, truthyStr, decide_eq_true_eq]

/-- C10: any preset name outside the four defined ones selects the
standard layout in both get_roi_config and the visualization path, and
that layout is nonempty. -/
theorem c10_unknown_preset (name : String)
    (h1 : name ≠ "user_check") (h2 : name ≠ "standard")
    (h3 : name ≠ "business_check") (h4 : name ≠ "personal_check") :
    get_roi_config name = standard_layout ∧
    visualize_rois_layout name = standard_layout ∧
    get_roi_config name ≠ [] := by
  have e1 : (name == "user_check") = false := beq_eq_false_iff_ne.mpr h1
  have e2 : (name == "standard") = false := beq_eq_false_iff_ne.mpr h2
  have e3 : (name == "business_check") = false := beq_eq_false_iff_ne.mpr h3
  have e4 : (name == "personal_check") = false := beq_eq_false_iff_ne.mpr h4
  have hg : get_roi_config name = standard_layout := by
    simp [get_roi_config, roi_presets, List.lookup, e1, e2, e3, e4]
  have hv : visualize_rois_layout name = standard_layout := by
    simp [visualize_rois_layout, roi_presets, List.lookup, e1, e2, e3, e4]
  refine ⟨hg, hv, ?_⟩
  rw [hg]
  unfold standard_layout
  exact List.cons_ne_nil _ _

/-- C10 witness: the unknown name bogus selects the standard layout. -/
theorem c10_unknown_preset_witness :
    get_roi_config "bogus" = standard_layout ∧
    visualize_rois_layout "bogus" = standard_layout ∧
    get_roi_config "bogus" ≠ [] :=
  c10_unknown_preset "bogus" (by decide) (by decide) (by decide) (by decide)

end CheckProc


